import Mathlib

/-!
Shallow embedding of the Snippetbox web application (cozycole/snippetbox).

The embedding covers the pieces the claims speak about:

* the `secureHeaders` middleware (from the code listing in `notes.md` and
  exercised by `cmd/web/middleware_test.go`);
* the form validator (the `internal/validator` package is not part of the
  sources at hand, only its call sites in `cmd/web/handlers.go`; it is
  modelled from the spec, section 4.1);
* the data models Snippets and Users (the `internal/models` method bodies
  are likewise absent, only the sentinel error declarations and the call
  sites are present; the operations are modelled from the spec,
  section 4.2);
* the handlers `snippetView`, `snippetCreatePost`, `userLoginPost`,
  `userLogoutPost` and `changePasswordPost`, translated from
  `cmd/web/handlers.go`, with the session manager modelled as explicit
  state carrying an operation trace.

HTTP status numbers follow `net/http`: 200 OK, 303 See Other,
404 Not Found, 422 Unprocessable Entity, 500 Internal Server Error.
-/

namespace Snippetbox

/-! ### Response headers and the secureHeaders middleware -/

/-- A header map, one value per canonical key, as `w.Header().Set` keeps it. -/
def Headers := String → Option String

/-- `w.Header().Set(key, value)`: replace any existing value for `key`. -/
def Headers.set (h : Headers) (key value : String) : Headers :=
  fun q => if q = key then some value else h q

/-- The response under construction: headers, status code, body. -/
structure ResponseState where
  headers : Headers
  status : Nat
  body : String

/-- An incoming HTTP request, as far as `secureHeaders` can observe it. -/
structure Request where
  method : String
  path : String

/-- An `http.Handler`: consumes the request and extends the response. -/
def Handler := Request → ResponseState → ResponseState

/-- The Content-Security-Policy value set by `secureHeaders`. -/
def cspValue : String :=
  "default-src \x27self\x27; style-src \x27self\x27 fonts.googleapis.com; font-src fonts.gstatic.com"

/-- The five header keys fixed by `secureHeaders`. -/
def secureHeaderKeys : List String :=
  ["Content-Security-Policy", "Referrer-Policy", "X-Content-Type-Options",
   "X-Frame-Options", "X-XSS-Protection"]

/-- The five `w.Header().Set` calls done by `secureHeaders` before delegating. -/
def setSecureHeaders (w : ResponseState) : ResponseState :=
  let h1 := w.headers.set "Content-Security-Policy" cspValue
  let h2 := h1.set "Referrer-Policy" "origin-when-cross-origin"
  let h3 := h2.set "X-Content-Type-Options" "nosniff"
  let h4 := h3.set "X-Frame-Options" "deny"
  let h5 := h4.set "X-XSS-Protection" "0"
  { w with headers := h5 }

/-- `secureHeaders` middleware: set the five headers, then call `next`. -/
def secureHeaders (next : Handler) : Handler :=
  fun r w => next r (setSecureHeaders w)

/-! ### Validator (modelled from the spec, section 4.1) -/

/-- Modelled from the spec: the `internal/validator` error accumulator.
Field errors are keyed by field name; `CheckField` records its message only
for a field that has no error yet (first message per field wins), while
`AddFieldError` and `AddNonFieldError` append unconditionally. -/
structure Validator where
  fieldErrors : List (String × String)
  nonFieldErrors : List String
  deriving DecidableEq, Repr

def Validator.empty : Validator := ⟨[], []⟩

/-- `Valid()`: true iff no field errors and no non-field errors exist. -/
def Validator.valid (v : Validator) : Bool :=
  v.fieldErrors.isEmpty && v.nonFieldErrors.isEmpty

/-- Whether some error is already recorded under `field`. -/
def Validator.hasFieldError (v : Validator) (field : String) : Bool :=
  v.fieldErrors.any (fun p => p.1 == field)

/-- `AddFieldError(field, message)`: unconditional append. -/
def Validator.addFieldError (v : Validator) (field message : String) : Validator :=
  { v with fieldErrors := v.fieldErrors ++ [(field, message)] }

/-- `AddNonFieldError(message)`: unconditional append. -/
def Validator.addNonFieldError (v : Validator) (message : String) : Validator :=
  { v with nonFieldErrors := v.nonFieldErrors ++ [message] }

/-- `CheckField(ok, field, message)`: when `ok` is false, record `message`
under `field` unless that field already has an error. -/
def Validator.checkField (v : Validator) (ok : Bool) (field message : String) : Validator :=
  if ok then v
  else if v.hasFieldError field then v
  else v.addFieldError field message

/-- Modelled from the spec: `validator.NotBlank` — the string is not empty
after trimming whitespace, i.e. it has some non-whitespace character. -/
def notBlank (s : String) : Bool := s.toList.any (fun c => !c.isWhitespace)

/-- Modelled from the spec: `validator.MaxChars` — at most `n` characters. -/
def maxChars (s : String) (n : Nat) : Bool := s.length ≤ n

/-- Modelled from the spec: `validator.MinChars` — at least `n` characters. -/
def minChars (s : String) (n : Nat) : Bool := n ≤ s.length

/-- Modelled from the spec: `validator.PermittedValue` — set membership. -/
def permittedValue (v : Int) (allowed : List Int) : Bool := allowed.contains v

/-- Modelled from the spec: `validator.ValidEmail`, an RFC-approximate
pattern match — exactly one `@` splitting a nonempty local part from a
nonempty domain that contains a dot. -/
def validEmail (s : String) : Bool :=
  let cs := s.toList
  let loc := cs.takeWhile (fun c => !(c == Char.ofNat 64))
  let rest := cs.dropWhile (fun c => !(c == Char.ofNat 64))
  match rest with
  | [] => false
  | _ :: dom =>
      (cs.count (Char.ofNat 64) == 1) && !loc.isEmpty && !dom.isEmpty &&
        dom.contains (Char.ofNat 46)

/-! ### Model errors (declared in `internal/models/errors.go`) -/

/-- The sentinel errors of the `models` package: `ErrNoRecord`,
`ErrInvalidCredentials`, `ErrDuplicateEmail`. -/
inductive ModelError where
  | errNoRecord
  | errInvalidCredentials
  | errDuplicateEmail
  deriving DecidableEq, Repr

/-! ### Snippets model (modelled from the spec, section 4.2) -/

/-- A snippet row: identity, title, content, creation and expiry instants.
Time is abstract (`Int` instants, expiry offsets added in days). -/
structure Snippet where
  id : Int
  title : String
  content : String
  created : Int
  expires : Int
  deriving DecidableEq, Repr

/-- The snippets table plus its auto-increment counter. -/
structure SnippetStore where
  nextId : Int
  rows : List Snippet
  deriving DecidableEq, Repr

/-- Modelled from the spec: `Snippets.Insert(title, content, expiresDays)`
inserts a row with creation time now and expiry now + expiresDays, and
returns the new identity. -/
def snippetsInsert (db : SnippetStore) (now : Int) (title content : String)
    (expiresDays : Int) : Int × SnippetStore :=
  let row : Snippet :=
    { id := db.nextId, title := title, content := content,
      created := now, expires := now + expiresDays }
  (db.nextId, { nextId := db.nextId + 1, rows := row :: db.rows })

/-- Modelled from the spec: `Snippets.Get(id)` fetches one non-expired
snippet (`expires > now AND id = ?`); `ErrNoRecord` if absent or expired. -/
def snippetsGet (db : SnippetStore) (now : Int) (id : Int) :
    Except ModelError Snippet :=
  match db.rows.find? (fun s => s.id == id && now < s.expires) with
  | none => .error .errNoRecord
  | some s => .ok s

/-! ### Users model (modelled from the spec, section 4.2) -/

/-- A user row; only the one-way hash of the password is stored. -/
structure User where
  id : Int
  name : String
  email : String
  hashedPassword : String
  deriving DecidableEq, Repr

/-- Modelled from the spec: the one-way password hash, abstracted to an
injective tagging function. -/
def hashPassword (password : String) : String := "hashed:" ++ password

/-- Modelled from the spec: `Users.Authenticate(email, password)` looks up
by email and compares the password against the stored hash; on any
mismatch (no such email OR wrong password) it returns the same
`ErrInvalidCredentials`. -/
def usersAuthenticate (db : List User) (email password : String) :
    Except ModelError Int :=
  match db.find? (fun u => u.email == email) with
  | none => .error .errInvalidCredentials
  | some u =>
      if u.hashedPassword == hashPassword password then .ok u.id
      else .error .errInvalidCredentials

/-- Modelled from the spec: `Users.Get(id)`. -/
def usersGet (db : List User) (id : Int) : Except ModelError User :=
  match db.find? (fun u => u.id == id) with
  | none => .error .errNoRecord
  | some u => .ok u

/-- Modelled from the spec: `Users.UpdatePassword(id, newPassword)`
re-hashes and overwrites. -/
def usersUpdatePassword (db : List User) (id : Int) (newPassword : String) :
    List User :=
  db.map (fun u =>
    if u.id == id then { u with hashedPassword := hashPassword newPassword } else u)

/-! ### Session manager

The scs session manager is external; following the spec (section 3 and
4.3) it is modelled as a token plus a string-keyed data bag.  Every
mutating call is also appended to an operation trace, so that the order of
the handler's session calls is part of the state. -/

/-- One call on the session manager, as the handlers issue them. -/
inductive SessionOp where
  | renewToken
  | put (key : String)
  | pop (key : String)
  | remove (key : String)
  deriving DecidableEq, Repr

/-- Session state: the opaque token (abstracted to a counter so that
renewal visibly changes it), the data bag, and the trace of mutating
calls made so far. -/
structure Session where
  token : Nat
  data : List (String × String)
  ops : List SessionOp
  deriving DecidableEq, Repr

/-- `RenewToken`: swap the token for a fresh one, keeping the data. -/
def Session.renewToken (s : Session) : Session :=
  { s with token := s.token + 1, ops := s.ops ++ [.renewToken] }

/-- `Put(key, value)`. -/
def Session.put (s : Session) (key value : String) : Session :=
  { s with data := (key, value) :: s.data.filter (fun p => !(p.1 == key)),
           ops := s.ops ++ [.put key] }

/-- `Exists(key)`. -/
def Session.hasKey (s : Session) (key : String) : Bool :=
  s.data.any (fun p => p.1 == key)

/-- `Get(key)` (empty string when absent, like a zero value). -/
def Session.get (s : Session) (key : String) : String :=
  match s.data.find? (fun p => p.1 == key) with
  | some p => p.2
  | none => ""

/-- `Pop(key)`: return the value and delete the key. -/
def Session.pop (s : Session) (key : String) : String × Session :=
  (s.get key,
   { s with data := s.data.filter (fun p => !(p.1 == key)),
            ops := s.ops ++ [.pop key] })

/-- `Remove(key)`. -/
def Session.remove (s : Session) (key : String) : Session :=
  { s with data := s.data.filter (fun p => !(p.1 == key)),
           ops := s.ops ++ [.remove key] }

/-- Whether, in a session operation trace, no occurrence of `op` comes
before the first `RenewToken` call. -/
def renewedBeforeOp (ops : List SessionOp) (op : SessionOp) : Bool :=
  (ops.takeWhile (fun o => !(o == SessionOp.renewToken))).all (fun o => !(o == op))

/-! ### Handlers (`cmd/web/handlers.go`) -/

/-- What a handler does with the response: render a template with a
status, redirect (`http.Redirect`), or report a server error (500). -/
inductive Response where
  | render (page : String) (status : Nat)
  | redirect (url : String) (status : Nat)
  | clientErrorResp (status : Nat)
  | serverErrorResp
  deriving DecidableEq, Repr

/-- `strconv.Atoi`: optional sign, at least one digit, nothing else,
64-bit range. -/
def atoiDigits (cs : List Char) : Option Nat :=
  if cs.isEmpty then none
  else cs.foldlM
    (fun acc c => if c.isDigit then some (acc * 10 + (c.toNat - 48)) else none) 0

/-- `strconv.Atoi` on the full string, signalling failure as `none`. -/
def atoi (s : String) : Option Int :=
  let signed : Option Int :=
    match s.toList with
    | [] => none
    | c :: rest =>
        if c = Char.ofNat 45 then (atoiDigits rest).map (fun n => -(n : Int))
        else if c = Char.ofNat 43 then (atoiDigits rest).map (fun n => (n : Int))
        else (atoiDigits s.toList).map (fun n => (n : Int))
  match signed with
  | some n => if n < -(2 ^ 63) || 2 ^ 63 - 1 < n then none else some n
  | none => none

/-- Result of the `snippetView` handler: the response plus whether
`app.snippets.Get` was reached. -/
structure SnippetViewResult where
  response : Response
  getCalled : Bool
  deriving DecidableEq, Repr

/-- `snippetView`: parse the `id` path parameter; not-found when it does
not parse or is below 1; otherwise fetch, mapping `ErrNoRecord` to 404. -/
def snippetView (db : SnippetStore) (now : Int) (idParam : String) :
    SnippetViewResult :=
  match atoi idParam with
  | none => { response := .clientErrorResp 404, getCalled := false }
  | some id =>
      if id < 1 then { response := .clientErrorResp 404, getCalled := false }
      else
        match snippetsGet db now id with
        | .error _ => { response := .clientErrorResp 404, getCalled := true }
        | .ok _ => { response := .render "view.tmpl.html" 200, getCalled := true }

/-- The `snippetCreateForm` after decoding, with its embedded validator. -/
structure SnippetCreateForm where
  title : String
  content : String
  expires : Int
  v : Validator
  deriving DecidableEq, Repr

/-- The four `CheckField` calls of `snippetCreatePost`, in source order. -/
def snippetCreateValidate (title content : String) (expires : Int) : Validator :=
  let v0 := Validator.empty
  let v1 := v0.checkField (notBlank title) "title" "This field cannot be blank"
  let v2 := v1.checkField (maxChars title 100) "title"
    "This field cannot be more than 100 characters long"
  let v3 := v2.checkField (notBlank content) "content" "This field cannot be blank"
  v3.checkField (permittedValue expires [1, 7, 365]) "expires"
    "This field must equal 1, 7, or 365"

/-- Result of `snippetCreatePost`: response, the form as the template
would receive it, the arguments of the `Snippets.Insert` call when one
was made, and the resulting store and session. -/
structure SnippetCreateResult where
  response : Response
  form : SnippetCreateForm
  insertCall : Option (String × String × Int)
  db : SnippetStore
  sess : Session
  deriving DecidableEq, Repr

/-- `snippetCreatePost`, after a successful form decode: validate; on
failure re-render `create.tmpl.html` with 422; on success insert, flash,
and redirect 303 to the view page of the new id. -/
def snippetCreatePost (db : SnippetStore) (now : Int) (sess : Session)
    (title content : String) (expires : Int) : SnippetCreateResult :=
  let v := snippetCreateValidate title content expires
  let form : SnippetCreateForm :=
    { title := title, content := content, expires := expires, v := v }
  if !v.valid then
    { response := .render "create.tmpl.html" 422, form := form,
      insertCall := none, db := db, sess := sess }
  else
    let inserted := snippetsInsert db now title content expires
    let sess2 := sess.put "flash" "Snippet successfully created!"
    { response := .redirect ("/snippet/view/" ++ toString inserted.1) 303,
      form := form, insertCall := some (title, content, expires),
      db := inserted.2, sess := sess2 }

/-- The `userLoginForm` after decoding, with its embedded validator. -/
structure UserLoginForm where
  email : String
  password : String
  v : Validator
  deriving DecidableEq, Repr

/-- The three `CheckField` calls of `userLoginPost`, in source order. -/
def loginShapeValidate (email password : String) : Validator :=
  let v0 := Validator.empty
  let v1 := v0.checkField (notBlank email) "email" "This field cannot be blank"
  let v2 := v1.checkField (validEmail email) "email"
    "This field must be a valid email address"
  v2.checkField (notBlank password) "password" "This field cannot be blank"

/-- Result of `userLoginPost`: response, the form as the template would
receive it, and the final session. -/
structure LoginResult where
  response : Response
  form : UserLoginForm
  sess : Session
  deriving DecidableEq, Repr

/-- `userLoginPost`, after a successful form decode: shape-validate; on
failure re-render `login.tmpl.html` with 422; authenticate, mapping
`ErrInvalidCredentials` to a non-field error and a 422 re-render; on
success renew the session token, store `authenticatedUserID`, and
redirect 303 to the popped `postLoginRedirectURL` when present, else to
`/snippet/create`. -/
def userLoginPost (users : List User) (sess : Session)
    (email password : String) : LoginResult :=
  let v := loginShapeValidate email password
  if !v.valid then
    { response := .render "login.tmpl.html" 422,
      form := { email := email, password := password, v := v }, sess := sess }
  else
    match usersAuthenticate users email password with
    | .error _ =>
        let v2 := v.addNonFieldError "Email or password is incorrect"
        { response := .render "login.tmpl.html" 422,
          form := { email := email, password := password, v := v2 }, sess := sess }
    | .ok id =>
        let s1 := sess.renewToken
        let s2 := s1.put "authenticatedUserID" (toString id)
        if s2.hasKey "postLoginRedirectURL" then
          let popped := s2.pop "postLoginRedirectURL"
          { response := .redirect popped.1 303,
            form := { email := email, password := password, v := v },
            sess := popped.2 }
        else
          { response := .redirect "/snippet/create" 303,
            form := { email := email, password := password, v := v },
            sess := s2 }

/-- `userLogoutPost`: renew the session token, remove
`authenticatedUserID`, flash, redirect 303 to `/`. -/
def userLogoutPost (sess : Session) : Response × Session :=
  let s1 := sess.renewToken
  let s2 := s1.remove "authenticatedUserID"
  let s3 := s2.put "flash" "You\x27ve been logged out successfully"
  (.redirect "/" 303, s3)

/-- The `passwordChangeForm` after decoding, with its embedded validator. -/
structure PasswordChangeForm where
  currentPassword : String
  newPassword : String
  confirmNewPassword : String
  v : Validator
  deriving DecidableEq, Repr

/-- The three `CheckField` calls of `changePasswordPost`, in source order. -/
def changePasswordValidate (currentPassword newPassword confirmNewPassword : String) :
    Validator :=
  let v0 := Validator.empty
  let v1 := v0.checkField (notBlank currentPassword) "currentPass"
    "This field cannot be blank"
  let v2 := v1.checkField (minChars newPassword 8 && maxChars newPassword 15)
    "newPass" "Password must be between 8 and 15 characters long"
  v2.checkField (newPassword == confirmNewPassword) "confirmNewPass"
    "Passwords do not match"

/-- Result of `changePasswordPost`: response, the form as the template
would receive it, and the arguments of the `Users.UpdatePassword` call
when one was made. -/
structure ChangePasswordResult where
  response : Response
  form : PasswordChangeForm
  updateCall : Option (Int × String)
  deriving DecidableEq, Repr

/-- `changePasswordPost`, after a successful form decode: validate; on
failure re-render `changePassword.tmpl.html` with 422; then get the
session user, re-authenticate the current password (mapping
`ErrInvalidCredentials` to a field error and a 422 re-render), and
finally update the password and redirect 303 to `/account/view`. -/
def changePasswordPost (users : List User) (authedId : Int)
    (currentPassword newPassword confirmNewPassword : String) :
    ChangePasswordResult :=
  let v := changePasswordValidate currentPassword newPassword confirmNewPassword
  let form : PasswordChangeForm :=
    { currentPassword := currentPassword, newPassword := newPassword,
      confirmNewPassword := confirmNewPassword, v := v }
  if !v.valid then
    { response := .render "changePassword.tmpl.html" 422, form := form,
      updateCall := none }
  else
    match usersGet users authedId with
    | .error _ => { response := .serverErrorResp, form := form, updateCall := none }
    | .ok user =>
        match usersAuthenticate users user.email currentPassword with
        | .error _ =>
            let form2 :=
              { form with v := v.addFieldError "current_pass" "Invalid current password" }
            { response := .render "changePassword.tmpl.html" 422, form := form2,
              updateCall := none }
        | .ok id2 =>
            { response := .redirect "/account/view" 303, form := form,
              updateCall := some (id2, newPassword) }

/-! ### Helper lemmas about the validator -/

theorem Validator.checkField_ok (v : Validator) (f m : String) :
    v.checkField true f m = v := rfl

theorem Validator.hasFieldError_checkField_ne (v : Validator) (ok : Bool)
    (f g m : String) (h : f ≠ g) :
    (v.checkField ok f m).hasFieldError g = v.hasFieldError g := by
  unfold Validator.checkField
  split
  · rfl
  · split
    · rfl
    · simp [Validator.hasFieldError, Validator.addFieldError, h]

theorem Validator.hasFieldError_checkField_fail (v : Validator) (f m : String) :
    (v.checkField false f m).hasFieldError f = true := by
  unfold Validator.checkField
  simp only [Bool.false_eq_true, if_false]
  split
  · assumption
  · simp [Validator.hasFieldError, Validator.addFieldError]

theorem Validator.hasFieldError_checkField_mono (v : Validator) (ok : Bool)
    (f g m : String) (h : v.hasFieldError g = true) :
    (v.checkField ok f m).hasFieldError g = true := by
  unfold Validator.checkField
  split
  · exact h
  · split
    · exact h
    · unfold Validator.hasFieldError Validator.addFieldError
      unfold Validator.hasFieldError at h
      simp only [List.any_append]
      simp [h]

theorem Validator.valid_eq_false_of_hasFieldError (v : Validator) (f : String)
    (h : v.hasFieldError f = true) : v.valid = false := by
  unfold Validator.valid
  unfold Validator.hasFieldError at h
  cases hfe : v.fieldErrors with
  | nil => rw [hfe] at h; simp at h
  | cons a t => simp [hfe]

theorem Validator.hasFieldError_empty (f : String) :
    Validator.empty.hasFieldError f = false := rfl

/-! ### Claim theorems -/

/-- C1: for every request, regardless of method or path, the
`secureHeaders` middleware sets exactly the five fixed response headers
(Content-Security-Policy, Referrer-Policy, X-Content-Type-Options:
nosniff, X-Frame-Options: deny, X-XSS-Protection: 0), changes nothing
else about the response before delegating (any other header key, the
status and the body are untouched), and always invokes the next handler:
its result is exactly the next handler's result on the header-extended
response. -/
theorem secureHeaders_sets_exactly_five (next : Handler) (r : Request)
    (w : ResponseState) (k : String) (hk : k ∉ secureHeaderKeys) :
    secureHeaders next r w = next r (setSecureHeaders w) ∧
    (setSecureHeaders w).headers "Content-Security-Policy" = some cspValue ∧
    (setSecureHeaders w).headers "Referrer-Policy" = some "origin-when-cross-origin" ∧
    (setSecureHeaders w).headers "X-Content-Type-Options" = some "nosniff" ∧
    (setSecureHeaders w).headers "X-Frame-Options" = some "deny" ∧
    (setSecureHeaders w).headers "X-XSS-Protection" = some "0" ∧
    (setSecureHeaders w).headers k = w.headers k ∧
    (setSecureHeaders w).status = w.status ∧
    (setSecureHeaders w).body = w.body := by
  refine ⟨rfl, rfl, rfl, rfl, rfl, rfl, ?_, rfl, rfl⟩
  simp only [secureHeaderKeys, List.mem_cons, List.mem_singleton, not_or] at hk
  obtain ⟨h1, h2, h3, h4, h5⟩ := hk
  simp [setSecureHeaders, Headers.set, h1, h2, h3, h4, h5]

/-- C1 witness: instantiated at a concrete handler, request, empty
response and the unrelated key X-Powered-By. -/
theorem secureHeaders_sets_exactly_five_witness :
    secureHeaders (fun _ w => { w with body := "OK" }) ⟨"GET", "/"⟩
        ⟨fun _ => none, 200, ""⟩ =
      (fun _ w => { w with body := "OK" } : Handler) ⟨"GET", "/"⟩
        (setSecureHeaders ⟨fun _ => none, 200, ""⟩) ∧
    (setSecureHeaders ⟨fun _ => none, 200, ""⟩).headers "X-Powered-By" =
      (⟨fun _ => none, 200, ""⟩ : ResponseState).headers "X-Powered-By" :=
  ⟨(secureHeaders_sets_exactly_five (fun _ w => { w with body := "OK" })
      ⟨"GET", "/"⟩ ⟨fun _ => none, 200, ""⟩ "X-Powered-By" (by decide)).1,
   (secureHeaders_sets_exactly_five (fun _ w => { w with body := "OK" })
      ⟨"GET", "/"⟩ ⟨fun _ => none, 200, ""⟩ "X-Powered-By"
      (by decide)).2.2.2.2.2.2.1⟩

/-- C7: for every submitted expires value outside {1, 7, 365}, the
snippet-creation validation fails — `Valid()` is false and a field error
sits under `expires` — and for every value in that set the expires check
passes (no field error under `expires`), whatever the other fields hold. -/
theorem snippetCreate_expires_permitted (title content : String) (expires : Int) :
    (expires ∉ ([1, 7, 365] : List Int) →
      (snippetCreateValidate title content expires).valid = false ∧
      (snippetCreateValidate title content expires).hasFieldError "expires" = true) ∧
    (expires ∈ ([1, 7, 365] : List Int) →
      (snippetCreateValidate title content expires).hasFieldError "expires" = false) := by
  constructor
  · intro h
    have hperm : permittedValue expires [1, 7, 365] = false := by
      simp [permittedValue, List.contains, List.elem_iff]
      simpa using h
    have herr : (snippetCreateValidate title content expires).hasFieldError "expires" = true := by
      unfold snippetCreateValidate
      rw [hperm]
      exact Validator.hasFieldError_checkField_fail _ _ _
    exact ⟨Validator.valid_eq_false_of_hasFieldError _ _ herr, herr⟩
  · intro h
    have hperm : permittedValue expires [1, 7, 365] = true := by
      simp [permittedValue, List.contains, List.elem_iff]
      simpa using h
    unfold snippetCreateValidate
    rw [hperm, Validator.checkField_ok]
    rw [Validator.hasFieldError_checkField_ne _ _ _ _ _ (by decide)]
    rw [Validator.hasFieldError_checkField_ne _ _ _ _ _ (by decide)]
    rw [Validator.hasFieldError_checkField_ne _ _ _ _ _ (by decide)]
    rfl

/-- C7 witness: expires 3 is rejected with a field error, expires 7
leaves no expires error. -/
theorem snippetCreate_expires_permitted_witness :
    ((snippetCreateValidate "t" "c" 3).valid = false ∧
      (snippetCreateValidate "t" "c" 3).hasFieldError "expires" = true) ∧
    (snippetCreateValidate "t" "c" 7).hasFieldError "expires" = false :=
  ⟨(snippetCreate_expires_permitted "t" "c" 3).1 (by decide),
   (snippetCreate_expires_permitted "t" "c" 7).2 (by decide)⟩

/-- C8: for every snippet-creation form whose title is longer than 100
characters, after the handler's validation checks, `Valid()` is false and
the accumulator holds a field error under `title`. -/
theorem snippetCreate_long_title_invalid (title content : String) (expires : Int)
    (h : 100 < title.length) :
    (snippetCreateValidate title content expires).valid = false ∧
    (snippetCreateValidate title content expires).hasFieldError "title" = true := by
  have hmax : maxChars title 100 = false := by
    unfold maxChars
    simp [Nat.not_le.mpr h]
  have herr : (snippetCreateValidate title content expires).hasFieldError "title" = true := by
    unfold snippetCreateValidate
    apply Validator.hasFieldError_checkField_mono
    apply Validator.hasFieldError_checkField_mono
    rw [hmax]
    exact Validator.hasFieldError_checkField_fail _ _ _
  exact ⟨Validator.valid_eq_false_of_hasFieldError _ _ herr, herr⟩

/-- C8 witness: a 101-character title is rejected with a title error. -/
theorem snippetCreate_long_title_invalid_witness :
    (snippetCreateValidate (String.mk (List.replicate 101 (Char.ofNat 97))) "c" 7).valid
        = false ∧
    (snippetCreateValidate (String.mk (List.replicate 101 (Char.ofNat 97))) "c" 7).hasFieldError
        "title" = true :=
  snippetCreate_long_title_invalid _ "c" 7 (by decide)

/-- C2: `Users.Authenticate` returns the identical sentinel
`ErrInvalidCredentials` both when no user with the email exists and when
the email exists but the password does not match the stored hash. -/
theorem authenticate_uniform_error (db : List User) (email password : String) :
    (db.find? (fun u => u.email == email) = none →
      usersAuthenticate db email password = .error .errInvalidCredentials) ∧
    (∀ u, db.find? (fun u => u.email == email) = some u →
      u.hashedPassword ≠ hashPassword password →
      usersAuthenticate db email password = .error .errInvalidCredentials) := by
  constructor
  · intro h
    unfold usersAuthenticate
    rw [h]
  · intro u hu hne
    unfold usersAuthenticate
    rw [hu]
    simp [hne]

/-- C2 witness: against a one-user store, an unknown email and a wrong
password for the known email both produce `ErrInvalidCredentials`. -/
theorem authenticate_uniform_error_witness :
    usersAuthenticate [⟨1, "Bob", "bob@example.com", hashPassword "password123"⟩]
        "alice@example.com" "password123" = .error .errInvalidCredentials ∧
    usersAuthenticate [⟨1, "Bob", "bob@example.com", hashPassword "password123"⟩]
        "bob@example.com" "wrongpass" = .error .errInvalidCredentials :=
  ⟨(authenticate_uniform_error _ "alice@example.com" "password123").1 (by decide),
   (authenticate_uniform_error _ "bob@example.com" "wrongpass").2
     ⟨1, "Bob", "bob@example.com", hashPassword "password123"⟩ (by decide) (by decide)⟩

/-- C9: for every snippet-view request whose id parameter does not parse
as an integer or parses below 1, the handler responds 404 and never calls
`Snippets.Get`. -/
theorem snippetView_invalid_id_notFound (db : SnippetStore) (now : Int)
    (idParam : String)
    (h : atoi idParam = none ∨ ∃ id, atoi idParam = some id ∧ id < 1) :
    snippetView db now idParam =
      { response := .clientErrorResp 404, getCalled := false } := by
  unfold snippetView
  rcases h with h | ⟨id, heq, hlt⟩
  · rw [h]
  · rw [heq]
    simp [hlt]

/-- C9 witness: the parameters 0 and abc both give 404 without a Get. -/
theorem snippetView_invalid_id_notFound_witness :
    snippetView ⟨1, []⟩ 0 "0" =
      { response := .clientErrorResp 404, getCalled := false } ∧
    snippetView ⟨1, []⟩ 0 "abc" =
      { response := .clientErrorResp 404, getCalled := false } :=
  ⟨snippetView_invalid_id_notFound ⟨1, []⟩ 0 "0" (Or.inr ⟨0, by decide, by decide⟩),
   snippetView_invalid_id_notFound ⟨1, []⟩ 0 "abc" (Or.inl (by decide))⟩

/-- C6: inserting a snippet with a valid expiry and immediately fetching
the returned id yields a snippet with the inserted title and content; and
fetching an id for which no non-expired snippet exists yields
`ErrNoRecord`. -/
theorem snippets_insert_get_roundtrip (db : SnippetStore) (now : Int)
    (title content : String) (d : Int) (hd : d ∈ ([1, 7, 365] : List Int))
    (badId : Int) (hb : ∀ s ∈ db.rows, ¬(s.id = badId ∧ now < s.expires)) :
    (∃ s, snippetsGet (snippetsInsert db now title content d).2 now
        (snippetsInsert db now title content d).1 = .ok s ∧
      s.title = title ∧ s.content = content) ∧
    snippetsGet db now badId = .error .errNoRecord := by
  have hdpos : 0 < d := by
    simp only [List.mem_cons, List.not_mem_nil, or_false] at hd
    rcases hd with h | h | h <;> subst h <;> norm_num
  constructor
  · refine ⟨{ id := db.nextId, title := title, content := content,
              created := now, expires := now + d }, ?_, rfl, rfl⟩
    unfold snippetsInsert snippetsGet
    simp only [List.find?]
    have hc : ((db.nextId == db.nextId) && decide (now < now + d)) = true := by
      simp
      omega
    rw [hc]
  · unfold snippetsGet
    have : db.rows.find? (fun s => s.id == badId && decide (now < s.expires)) = none := by
      rw [List.find?_eq_none]
      intro s hs
      have := hb s hs
      simp only [Bool.and_eq_true, beq_iff_eq, decide_eq_true_eq]
      tauto
    rw [this]

/-- C6 witness: a concrete insert into an empty store round-trips, and a
fetch of id 42 from the empty store is `ErrNoRecord`. -/
theorem snippets_insert_get_roundtrip_witness :
    (∃ s, snippetsGet (snippetsInsert ⟨1, []⟩ 0 "t" "c" 7).2 0
        (snippetsInsert ⟨1, []⟩ 0 "t" "c" 7).1 = .ok s ∧
      s.title = "t" ∧ s.content = "c") ∧
    snippetsGet ⟨1, []⟩ 0 42 = .error .errNoRecord :=
  snippets_insert_get_roundtrip ⟨1, []⟩ 0 "t" "c" 7 (by decide) 42
    (by intro s hs; simp at hs)

/-! ### Helper lemmas about the session data bag -/

theorem keyAny_filter_ne (l : List (String × String)) (k q : String) (h : q ≠ k) :
    ((l.filter (fun p => !(p.1 == k))).any (fun p => p.1 == q)) =
      l.any (fun p => p.1 == q) := by
  rw [List.any_filter]
  have hfun : (fun p : String × String => !(p.1 == k) && (p.1 == q)) =
      fun p : String × String => p.1 == q := by
    funext x
    by_cases hx : x.1 = q
    · have hxk : (x.1 == k) = false := by
        rw [beq_eq_false_iff_ne, hx]
        exact h
      rw [hxk]
      simp
    · have hxq : (x.1 == q) = false := by
        rw [beq_eq_false_iff_ne]
        exact hx
      rw [hxq]
      simp
  rw [hfun]

theorem keyAny_filter_self (l : List (String × String)) (k : String) :
    ((l.filter (fun p => !(p.1 == k))).any (fun p => p.1 == k)) = false := by
  rw [List.any_filter]
  have hfun : (fun p : String × String => !(p.1 == k) && (p.1 == k)) =
      fun _ : String × String => false := by
    funext x
    exact Bool.not_and_self _
  rw [hfun]
  simp

theorem keyFind_filter_ne (l : List (String × String)) (k q : String) (h : q ≠ k) :
    ((l.filter (fun p => !(p.1 == k))).find? (fun p => p.1 == q)) =
      l.find? (fun p => p.1 == q) := by
  induction l with
  | nil => rfl
  | cons a t ih =>
      by_cases hk : a.1 = k
      · have haq : (a.1 == q) = false := by
          rw [beq_eq_false_iff_ne, hk]
          exact fun hh => h hh.symm
        have hkq : (k == q) = false := by
          rw [beq_eq_false_iff_ne]
          exact fun hh => h hh.symm
        simp [List.filter_cons, List.find?_cons, hk, haq, hkq, ih]
      · simp only [List.filter_cons]
        have hak : (!(a.1 == k)) = true := by
          simp [hk]
        rw [hak, if_pos rfl]
        by_cases hq : a.1 = q
        · simp [List.find?_cons, hq]
        · simp [List.find?_cons, hq, ih]

theorem Session.token_renewToken (s : Session) : s.renewToken.token = s.token + 1 := rfl

theorem Session.token_put (s : Session) (k v : String) : (s.put k v).token = s.token := rfl

theorem Session.token_pop (s : Session) (k : String) : (s.pop k).2.token = s.token := rfl

theorem Session.hasKey_renewToken (s : Session) (k : String) :
    s.renewToken.hasKey k = s.hasKey k := rfl

theorem Session.get_renewToken (s : Session) (k : String) :
    s.renewToken.get k = s.get k := rfl

theorem Session.hasKey_put_ne (s : Session) (k q v : String) (h : q ≠ k) :
    (s.put k v).hasKey q = s.hasKey q := by
  unfold Session.put Session.hasKey
  simp only [List.any_cons]
  rw [keyAny_filter_ne s.data k q h]
  have hkq : (k == q) = false := by
    simp only [beq_eq_false_iff_ne]
    exact fun hh => h hh.symm
  simp [hkq]

theorem Session.get_put_ne (s : Session) (k q v : String) (h : q ≠ k) :
    (s.put k v).get q = s.get q := by
  unfold Session.put Session.get
  simp only [List.find?]
  have hkq : (k == q) = false := by
    simp only [beq_eq_false_iff_ne]
    exact fun hh => h hh.symm
  rw [hkq]
  rw [keyFind_filter_ne s.data k q h]

theorem Session.get_put_self (s : Session) (k v : String) :
    (s.put k v).get k = v := by
  unfold Session.put Session.get
  simp [List.find?]

theorem Session.get_pop_ne (s : Session) (k q : String) (h : q ≠ k) :
    (s.pop k).2.get q = s.get q := by
  unfold Session.pop Session.get
  simp only
  rw [keyFind_filter_ne s.data k q h]

theorem Session.hasKey_pop_self (s : Session) (k : String) :
    (s.pop k).2.hasKey k = false := by
  unfold Session.pop Session.hasKey
  simp only
  exact keyAny_filter_self s.data k

/-- C5: for every snippet-creation POST that decodes successfully, a
validation failure re-renders `create.tmpl.html` with the form errors and
status 422 without calling `Snippets.Insert`, while a validation pass
calls `Snippets.Insert` and redirects 303 to the view page of the
returned id. -/
theorem snippetCreatePost_state_machine (db : SnippetStore) (now : Int)
    (sess : Session) (title content : String) (expires : Int) :
    ((snippetCreateValidate title content expires).valid = false →
      snippetCreatePost db now sess title content expires =
        { response := .render "create.tmpl.html" 422,
          form := { title := title, content := content, expires := expires,
                    v := snippetCreateValidate title content expires },
          insertCall := none, db := db, sess := sess }) ∧
    ((snippetCreateValidate title content expires).valid = true →
      (snippetCreatePost db now sess title content expires).insertCall =
        some (title, content, expires) ∧
      (snippetCreatePost db now sess title content expires).response =
        .redirect ("/snippet/view/" ++
          toString (snippetsInsert db now title content expires).1) 303) := by
  constructor
  · intro hv
    simp [snippetCreatePost, hv]
  · intro hv
    simp [snippetCreatePost, hv]

/-- C5 witness: an all-blank form is re-rendered with 422 and no insert;
a well-formed form is inserted and redirected to its view page. -/
theorem snippetCreatePost_state_machine_witness :
    snippetCreatePost ⟨1, []⟩ 0 ⟨0, [], []⟩ "" "" 2 =
      { response := .render "create.tmpl.html" 422,
        form := { title := "", content := "", expires := 2,
                  v := snippetCreateValidate "" "" 2 },
        insertCall := none, db := ⟨1, []⟩, sess := ⟨0, [], []⟩ } ∧
    ((snippetCreatePost ⟨1, []⟩ 0 ⟨0, [], []⟩ "t" "c" 7).insertCall =
        some ("t", "c", 7) ∧
      (snippetCreatePost ⟨1, []⟩ 0 ⟨0, [], []⟩ "t" "c" 7).response =
        .redirect ("/snippet/view/" ++
          toString (snippetsInsert ⟨1, []⟩ 0 "t" "c" 7).1) 303) :=
  ⟨(snippetCreatePost_state_machine ⟨1, []⟩ 0 ⟨0, [], []⟩ "" "" 2).1 (by decide),
   (snippetCreatePost_state_machine ⟨1, []⟩ 0 ⟨0, [], []⟩ "t" "c" 7).2 (by decide)⟩

/-- C10: for every password-change POST that decodes successfully, a new
password shorter than 8 or longer than 15 characters, or one that differs
from the confirmation field, makes the handler re-render
`changePassword.tmpl.html` with status 422 without calling
`Users.UpdatePassword`. -/
theorem changePasswordPost_shape_reject (users : List User) (authedId : Int)
    (currentPw newPw confirmPw : String)
    (h : newPw.length < 8 ∨ 15 < newPw.length ∨ newPw ≠ confirmPw) :
    (changePasswordPost users authedId currentPw newPw confirmPw).response =
      .render "changePassword.tmpl.html" 422 ∧
    (changePasswordPost users authedId currentPw newPw confirmPw).updateCall
      = none := by
  have hv : (changePasswordValidate currentPw newPw confirmPw).valid = false := by
    rcases h with h | h | h
    · have hc : (minChars newPw 8 && maxChars newPw 15) = false := by
        simp only [minChars, maxChars, Bool.and_eq_false_iff, decide_eq_false_iff_not]
        omega
      apply Validator.valid_eq_false_of_hasFieldError _ "newPass"
      unfold changePasswordValidate
      apply Validator.hasFieldError_checkField_mono
      rw [hc]
      exact Validator.hasFieldError_checkField_fail _ _ _
    · have hc : (minChars newPw 8 && maxChars newPw 15) = false := by
        simp only [minChars, maxChars, Bool.and_eq_false_iff, decide_eq_false_iff_not]
        omega
      apply Validator.valid_eq_false_of_hasFieldError _ "newPass"
      unfold changePasswordValidate
      apply Validator.hasFieldError_checkField_mono
      rw [hc]
      exact Validator.hasFieldError_checkField_fail _ _ _
    · have hc : (newPw == confirmPw) = false := by
        simp only [beq_eq_false_iff_ne]
        exact h
      apply Validator.valid_eq_false_of_hasFieldError _ "confirmNewPass"
      unfold changePasswordValidate
      rw [hc]
      exact Validator.hasFieldError_checkField_fail _ _ _
  simp [changePasswordPost, hv]

/-- C10 witness: a five-character new password is rejected with 422 and
no password update. -/
theorem changePasswordPost_shape_reject_witness :
    (changePasswordPost [⟨1, "Bob", "bob@example.com", hashPassword "oldpass12"⟩]
        1 "oldpass12" "short" "short").response =
      .render "changePassword.tmpl.html" 422 ∧
    (changePasswordPost [⟨1, "Bob", "bob@example.com", hashPassword "oldpass12"⟩]
        1 "oldpass12" "short" "short").updateCall = none :=
  changePasswordPost_shape_reject _ 1 "oldpass12" "short" "short"
    (Or.inl (by decide))

/-- C3: on every privilege change the session token is rotated: a
successful login issues `RenewToken` before `Put authenticatedUserID`
(and the put does occur), a logout issues `RenewToken` before
`Remove authenticatedUserID` (and the remove does occur), and in both
cases the resulting session carries a token different from the
pre-change one. -/
theorem session_token_rotation (users : List User) (sess : Session)
    (email password : String) (id : Int) (h : sess.ops = [])
    (hv : (loginShapeValidate email password).valid = true)
    (hauth : usersAuthenticate users email password = .ok id) :
    (renewedBeforeOp (userLoginPost users sess email password).sess.ops
        (SessionOp.put "authenticatedUserID") = true ∧
      (userLoginPost users sess email password).sess.ops.contains
        (SessionOp.put "authenticatedUserID") = true ∧
      (userLoginPost users sess email password).sess.token ≠ sess.token) ∧
    (renewedBeforeOp (userLogoutPost sess).2.ops
        (SessionOp.remove "authenticatedUserID") = true ∧
      (userLogoutPost sess).2.ops.contains
        (SessionOp.remove "authenticatedUserID") = true ∧
      (userLogoutPost sess).2.token ≠ sess.token) := by
  constructor
  · simp only [userLoginPost, hv, Bool.not_true, Bool.false_eq_true, if_false, hauth,
      Session.renewToken, Session.put, Session.pop, h, List.nil_append,
      List.cons_append]
    split
    · refine ⟨?_, ?_, ?_⟩ <;> simp [renewedBeforeOp, List.contains, List.elem_iff]
    · refine ⟨?_, ?_, ?_⟩ <;> simp [renewedBeforeOp, List.contains, List.elem_iff]
  · simp [userLogoutPost, Session.renewToken, Session.put, Session.remove,
      renewedBeforeOp, h]

/-- C3 witness: a concrete successful login and a logout from a fresh
session both rotate the token around the privilege change. -/
theorem session_token_rotation_witness :
    (renewedBeforeOp (userLoginPost
          [⟨1, "Bob", "bob@example.com", hashPassword "password123"⟩]
          ⟨0, [], []⟩ "bob@example.com" "password123").sess.ops
        (SessionOp.put "authenticatedUserID") = true ∧
      (userLoginPost [⟨1, "Bob", "bob@example.com", hashPassword "password123"⟩]
          ⟨0, [], []⟩ "bob@example.com" "password123").sess.ops.contains
        (SessionOp.put "authenticatedUserID") = true ∧
      (userLoginPost [⟨1, "Bob", "bob@example.com", hashPassword "password123"⟩]
          ⟨0, [], []⟩ "bob@example.com" "password123").sess.token ≠
        (⟨0, [], []⟩ : Session).token) ∧
    (renewedBeforeOp (userLogoutPost ⟨0, [], []⟩).2.ops
        (SessionOp.remove "authenticatedUserID") = true ∧
      (userLogoutPost ⟨0, [], []⟩).2.ops.contains
        (SessionOp.remove "authenticatedUserID") = true ∧
      (userLogoutPost ⟨0, [], []⟩).2.token ≠ (⟨0, [], []⟩ : Session).token) :=
  session_token_rotation
    [⟨1, "Bob", "bob@example.com", hashPassword "password123"⟩]
    ⟨0, [], []⟩ "bob@example.com" "password123" 1 rfl (by decide) rfl

/-- C4: for every login POST that decodes successfully: a shape-validation
failure re-renders the login form with 422 and an untouched session; an
`ErrInvalidCredentials` from Authenticate re-renders with 422 and a
non-field error appended; a successful authentication renews the token,
stores `authenticatedUserID`, and redirects 303 to the saved
`postLoginRedirectURL` (consumed from the session) when one exists,
otherwise to `/snippet/create`. -/
theorem userLoginPost_state_machine (users : List User) (sess : Session)
    (email password : String) :
    ((loginShapeValidate email password).valid = false →
      userLoginPost users sess email password =
        { response := .render "login.tmpl.html" 422,
          form := { email := email, password := password,
                    v := loginShapeValidate email password },
          sess := sess }) ∧
    (∀ e, (loginShapeValidate email password).valid = true →
      usersAuthenticate users email password = .error e →
      (userLoginPost users sess email password).response =
        .render "login.tmpl.html" 422 ∧
      (userLoginPost users sess email password).form.v.nonFieldErrors =
        (loginShapeValidate email password).nonFieldErrors ++
          ["Email or password is incorrect"] ∧
      (userLoginPost users sess email password).sess = sess) ∧
    (∀ id, (loginShapeValidate email password).valid = true →
      usersAuthenticate users email password = .ok id →
      (userLoginPost users sess email password).sess.get "authenticatedUserID" =
        toString id ∧
      (userLoginPost users sess email password).sess.token = sess.token + 1 ∧
      (sess.hasKey "postLoginRedirectURL" = true →
        (userLoginPost users sess email password).response =
          .redirect (sess.get "postLoginRedirectURL") 303 ∧
        (userLoginPost users sess email password).sess.hasKey
          "postLoginRedirectURL" = false) ∧
      (sess.hasKey "postLoginRedirectURL" = false →
        (userLoginPost users sess email password).response =
          .redirect "/snippet/create" 303)) := by
  refine ⟨?_, ?_, ?_⟩
  · intro hv
    simp [userLoginPost, hv]
  · intro e hv hauth
    simp [userLoginPost, hv, hauth, Validator.addNonFieldError]
  · intro id hv hauth
    have hkeys : ((sess.renewToken).put "authenticatedUserID"
        (toString id)).hasKey "postLoginRedirectURL" =
        sess.hasKey "postLoginRedirectURL" := by
      rw [Session.hasKey_put_ne _ _ _ _ (by decide)]
      rw [Session.hasKey_renewToken]
    by_cases hk : sess.hasKey "postLoginRedirectURL" = true
    · have hcond : ((sess.renewToken).put "authenticatedUserID"
          (toString id)).hasKey "postLoginRedirectURL" = true := by
        rw [hkeys]
        exact hk
      have heval : userLoginPost users sess email password =
          { response := .redirect (((sess.renewToken).put "authenticatedUserID"
              (toString id)).pop "postLoginRedirectURL").1 303,
            form := { email := email, password := password,
                      v := loginShapeValidate email password },
            sess := (((sess.renewToken).put "authenticatedUserID"
              (toString id)).pop "postLoginRedirectURL").2 } := by
        simp [userLoginPost, hv, hauth, hcond]
      refine ⟨?_, ?_, ?_, ?_⟩
      · rw [heval]
        show ((((sess.renewToken).put "authenticatedUserID"
            (toString id)).pop "postLoginRedirectURL").2).get "authenticatedUserID"
            = toString id
        rw [Session.get_pop_ne _ _ _ (by decide), Session.get_put_self]
      · rw [heval]
        show ((((sess.renewToken).put "authenticatedUserID"
            (toString id)).pop "postLoginRedirectURL").2).token = sess.token + 1
        rw [Session.token_pop, Session.token_put, Session.token_renewToken]
      · intro _
        constructor
        · rw [heval]
          show Response.redirect (((sess.renewToken).put "authenticatedUserID"
              (toString id)).pop "postLoginRedirectURL").1 303 =
            Response.redirect (sess.get "postLoginRedirectURL") 303
          have hurl : (((sess.renewToken).put "authenticatedUserID"
              (toString id)).pop "postLoginRedirectURL").1 =
              sess.get "postLoginRedirectURL" := by
            show ((sess.renewToken).put "authenticatedUserID"
                (toString id)).get "postLoginRedirectURL" =
              sess.get "postLoginRedirectURL"
            rw [Session.get_put_ne _ _ _ _ (by decide), Session.get_renewToken]
          rw [hurl]
        · rw [heval]
          exact Session.hasKey_pop_self _ _
      · intro hcontra
        rw [hk] at hcontra
        cases hcontra
    · have hk2 : sess.hasKey "postLoginRedirectURL" = false := by
        cases hcase : sess.hasKey "postLoginRedirectURL" with
        | false => rfl
        | true => exact absurd hcase hk
      have hcond : ((sess.renewToken).put "authenticatedUserID"
          (toString id)).hasKey "postLoginRedirectURL" = false := by
        rw [hkeys]
        exact hk2
      have heval : userLoginPost users sess email password =
          { response := .redirect "/snippet/create" 303,
            form := { email := email, password := password,
                      v := loginShapeValidate email password },
            sess := (sess.renewToken).put "authenticatedUserID" (toString id) } := by
        simp [userLoginPost, hv, hauth, hcond]
      refine ⟨?_, ?_, ?_, ?_⟩
      · rw [heval]
        show ((sess.renewToken).put "authenticatedUserID"
            (toString id)).get "authenticatedUserID" = toString id
        rw [Session.get_put_self]
      · rw [heval]
        show ((sess.renewToken).put "authenticatedUserID"
            (toString id)).token = sess.token + 1
        rw [Session.token_put, Session.token_renewToken]
      · intro hcontra
        rw [hk2] at hcontra
        cases hcontra
      · intro _
        rw [heval]

/-- C4 witness: a malformed email shape gives a 422 re-render; a wrong
password gives a 422 re-render with the non-field error; a good login
with a saved redirect URL renews, stores the id and redirects to it. -/
theorem userLoginPost_state_machine_witness :
    (userLoginPost [] ⟨0, [], []⟩ "notanemail" "pw12345" =
      { response := .render "login.tmpl.html" 422,
        form := { email := "notanemail", password := "pw12345",
                  v := loginShapeValidate "notanemail" "pw12345" },
        sess := ⟨0, [], []⟩ }) ∧
    ((userLoginPost [⟨1, "Bob", "bob@example.com", hashPassword "password123"⟩]
        ⟨0, [], []⟩ "bob@example.com" "wrongpass").form.v.nonFieldErrors =
      (loginShapeValidate "bob@example.com" "wrongpass").nonFieldErrors ++
        ["Email or password is incorrect"]) ∧
    ((userLoginPost [⟨1, "Bob", "bob@example.com", hashPassword "password123"⟩]
        ⟨0, [("postLoginRedirectURL", "/snippet/view/9")], []⟩
        "bob@example.com" "password123").response =
      .redirect ((⟨0, [("postLoginRedirectURL", "/snippet/view/9")], []⟩ : Session).get
        "postLoginRedirectURL") 303) :=
  ⟨(userLoginPost_state_machine [] ⟨0, [], []⟩ "notanemail" "pw12345").1
      (by decide),
   ((userLoginPost_state_machine
        [⟨1, "Bob", "bob@example.com", hashPassword "password123"⟩]
        ⟨0, [], []⟩ "bob@example.com" "wrongpass").2.1
      ModelError.errInvalidCredentials (by decide) rfl).2.1,
   (((userLoginPost_state_machine
        [⟨1, "Bob", "bob@example.com", hashPassword "password123"⟩]
        ⟨0, [("postLoginRedirectURL", "/snippet/view/9")], []⟩
        "bob@example.com" "password123").2.2 1 (by decide) rfl).2.2.1
      (by decide)).1⟩

end Snippetbox
